import Mathlib

/-!
Shallow embedding of `src/error.rs` of the rubato resampling library:
the cpu-feature identification model, the capability fault, and the
two error taxonomies (construction errors and per-call errors) together
with their diagnostic formatting (`fmt::Display` / `fmt::Debug`).

Modelling conventions:
* Rust `usize` fields are modelled by `ℕ` (unsigned machine integers;
  the claims here never involve overflow, only the carried values).
* Rust `f64` fields are modelled by exact rationals `ℚ`; the only float
  arithmetic appearing in the embedded code is the `/` and `*` inside the
  `RatioOutOfBounds` message, modelled exactly.  Rust's `Display` for
  `f64` is modelled by the canonical rendering of the rational value.
* Each `impl fmt::Display` is embedded as a pure `String`-valued
  function whose literal pieces are exactly the format-string pieces of
  the corresponding `write!` call.
* `cfg(target_arch = "...")` attributes on enum variants are modelled by
  tagging each variant with the architecture whose build includes it.
-/

namespace Rubato

/-- The two target architectures mentioned by `cfg(target_arch = ...)`
attributes in `src/error.rs`. -/
inductive Arch
  | x86_64
  | aarch64
deriving DecidableEq, Repr

/-- An identifier for a cpu feature (`enum CpuFeature`). -/
inductive CpuFeature
  | Sse3
  | Avx
  | Fma
  | Neon
deriving DecidableEq, Repr

/-- The architecture whose build includes each variant, from the
`cfg(target_arch)` attribute placed on that variant in the source. -/
def CpuFeature.arch : CpuFeature → Arch
  | .Sse3 => .x86_64
  | .Avx => .x86_64
  | .Fma => .x86_64
  | .Neon => .aarch64

/-- `impl fmt::Display for CpuFeature`. -/
def CpuFeature.display : CpuFeature → String
  | .Sse3 => "sse3"
  | .Avx => "avx"
  | .Fma => "fma"
  | .Neon => "neon"

/-- `struct MissingCpuFeature(pub(crate) CpuFeature)`: wraps the single
required feature and nothing else. -/
structure MissingCpuFeature where
  feature : CpuFeature
deriving DecidableEq, Repr

/-- `impl fmt::Display for MissingCpuFeature`:
`write!(f, "Missing CPU feature `\x7b\x7d`", self.0)`. -/
def MissingCpuFeature.display (e : MissingCpuFeature) : String :=
  "Missing CPU feature `" ++ e.feature.display ++ "`"

/-- Rust `f64`, modelled by exact rationals. -/
abbrev F64 := ℚ

/-- Rust's `Display` for `f64`, modelled as the canonical rendering of
the rational value.  Total and deterministic, like the original. -/
def F64.display (x : F64) : String := toString x

/-- `enum ResamplerConstructionError`. -/
inductive ResamplerConstructionError
  | InvalidSampleRate (input output : ℕ)
  | InvalidRelativeRatio (provided : F64)
  | InvalidRatio (provided : F64)

/-- `impl fmt::Display for ResamplerConstructionError`. -/
def ResamplerConstructionError.display : ResamplerConstructionError → String
  | .InvalidSampleRate input output =>
      "Input and output sample rates must both be > 0. Provided input: "
        ++ toString input ++ ", provided output: " ++ toString output
  | .InvalidRatio provided =>
      "Invalid resample_ratio provided: " ++ F64.display provided
        ++ ". resample_ratio must be > 0"
  | .InvalidRelativeRatio provided =>
      "Invalid max_resample_ratio_relative provided: " ++ F64.display provided
        ++ ". max_resample_ratio_relative must be >= 1"

/-- `impl fmt::Debug for ResamplerConstructionError`:
`write!(formatter, "\x7b\x7d", self)`, i.e. it forwards to `Display`. -/
def ResamplerConstructionError.debugStr (e : ResamplerConstructionError) : String :=
  e.display

/-- `enum ResampleError`. -/
inductive ResampleError
  | RatioOutOfBounds (provided original max_relative_ratio : F64)
  | SyncNotAdjustable
  | WrongNumberOfInputChannels (expected actual : ℕ)
  | WrongNumberOfOutputChannels (expected actual : ℕ)
  | WrongNumberOfMaskChannels (expected actual : ℕ)
  | InsufficientInputBufferSize (channel expected actual : ℕ)
  | InsufficientOutputBufferSize (channel expected actual : ℕ)

/-- `impl fmt::Display for ResampleError`. -/
def ResampleError.display : ResampleError → String
  | .RatioOutOfBounds provided original max_relative_ratio =>
      "New resample ratio out of bounds. Provided ratio " ++ F64.display provided
        ++ ", original resample ratio " ++ F64.display original
        ++ ", maximum relative ratio " ++ F64.display max_relative_ratio
        ++ ", allowed absolute range " ++ F64.display (original / max_relative_ratio)
        ++ " to " ++ F64.display (original * max_relative_ratio)
  | .SyncNotAdjustable =>
      "Not possible to adjust a synchronous resampler"
  | .WrongNumberOfInputChannels expected actual =>
      "Wrong number of channels " ++ toString actual ++ " in input, expected "
        ++ toString expected
  | .WrongNumberOfOutputChannels expected actual =>
      "Wrong number of channels " ++ toString actual ++ " in output, expected "
        ++ toString expected
  | .WrongNumberOfMaskChannels expected actual =>
      "Wrong number of channels " ++ toString actual ++ " in mask, expected "
        ++ toString expected
  | .InsufficientInputBufferSize channel expected actual =>
      "Insufficient buffer size " ++ toString actual ++ " for input channel "
        ++ toString channel ++ ", expected " ++ toString expected
  | .InsufficientOutputBufferSize channel expected actual =>
      "Insufficient buffer size " ++ toString actual ++ " for output channel "
        ++ toString channel ++ ", expected " ++ toString expected

/-- `impl fmt::Debug for ResampleError`:
`write!(formatter, "\x7b\x7d", self)`, i.e. it forwards to `Display`. -/
def ResampleError.debugStr (e : ResampleError) : String :=
  e.display

/-- Following the spec's words (for comparison with the message produced
by the source): the allowed ratio window
`[original_ratio / max_relative_ratio, original_ratio * max_relative_ratio]`. -/
def specRatioWindow (original max_relative_ratio : F64) : F64 × F64 :=
  (original / max_relative_ratio, original * max_relative_ratio)

/-- The `usize` fields carried by a construction fault, in source order. -/
def ResamplerConstructionError.natFields : ResamplerConstructionError → List ℕ
  | .InvalidSampleRate input output => [input, output]
  | .InvalidRelativeRatio _ => []
  | .InvalidRatio _ => []

/-- The `usize` fields carried by a per-call fault, in source order. -/
def ResampleError.natFields : ResampleError → List ℕ
  | .RatioOutOfBounds _ _ _ => []
  | .SyncNotAdjustable => []
  | .WrongNumberOfInputChannels expected actual => [expected, actual]
  | .WrongNumberOfOutputChannels expected actual => [expected, actual]
  | .WrongNumberOfMaskChannels expected actual => [expected, actual]
  | .InsufficientInputBufferSize channel expected actual => [channel, expected, actual]
  | .InsufficientOutputBufferSize channel expected actual => [channel, expected, actual]

/-- `needle` occurs verbatim (contiguously) inside `hay`. -/
def substrOf (needle hay : String) : Prop :=
  ∃ s t : List Char, s ++ needle.data ++ t = hay.data

theorem data_append_eq (a b : String) : (a ++ b).data = a.data ++ b.data := rfl

theorem substrOf_self (n : String) : substrOf n n :=
  ⟨[], [], by simp⟩

theorem substrOf_appL {n a : String} (b : String) (h : substrOf n a) :
    substrOf n (a ++ b) := by
  obtain ⟨s, t, hs⟩ := h
  exact ⟨s, t ++ b.data, by rw [data_append_eq, ← hs]; simp⟩

theorem substrOf_appR {n b : String} (a : String) (h : substrOf n b) :
    substrOf n (a ++ b) := by
  obtain ⟨s, t, hs⟩ := h
  exact ⟨a.data ++ s, t, by rw [data_append_eq, ← hs]; simp⟩

theorem length_eq_data_length (s : String) : s.length = s.data.length := rfl

theorem length_append_pos (a b : String) (h : 0 < a.length) :
    0 < (a ++ b).length := by
  have heq : (a ++ b).length = a.length + b.length := by
    rw [length_eq_data_length, data_append_eq, List.length_append]
    rfl
  omega

/-- C1: every variant of `ResamplerConstructionError` and of `ResampleError`
is matched by the diagnostic formatting function; rendering is total and
yields a non-empty string for every value of either type. -/
theorem c1_every_variant_renders_nonempty :
    (∀ e : ResamplerConstructionError, 0 < e.display.length) ∧
    (∀ e : ResampleError, 0 < e.display.length) := by
  constructor <;> intro e <;> cases e <;>
    simp only [ResamplerConstructionError.display, ResampleError.display] <;>
    (repeat apply length_append_pos) <;> decide

/-- C2: for every fault value of `ResamplerConstructionError` and
`ResampleError`, the rendered diagnostic message contains the textual
rendering of every field carried by that variant (expected, actual,
channel index, provided/original ratios, bounds) verbatim. -/
theorem c2_every_field_rendered_verbatim :
    (∀ input output : ℕ,
        substrOf (toString input)
          (ResamplerConstructionError.display (.InvalidSampleRate input output)) ∧
        substrOf (toString output)
          (ResamplerConstructionError.display (.InvalidSampleRate input output))) ∧
    (∀ provided : F64,
        substrOf (F64.display provided)
          (ResamplerConstructionError.display (.InvalidRatio provided))) ∧
    (∀ provided : F64,
        substrOf (F64.display provided)
          (ResamplerConstructionError.display (.InvalidRelativeRatio provided))) ∧
    (∀ provided original max_relative_ratio : F64,
        substrOf (F64.display provided)
          (ResampleError.display
            (.RatioOutOfBounds provided original max_relative_ratio)) ∧
        substrOf (F64.display original)
          (ResampleError.display
            (.RatioOutOfBounds provided original max_relative_ratio)) ∧
        substrOf (F64.display max_relative_ratio)
          (ResampleError.display
            (.RatioOutOfBounds provided original max_relative_ratio))) ∧
    (∀ expected actual : ℕ,
        substrOf (toString expected)
          (ResampleError.display (.WrongNumberOfInputChannels expected actual)) ∧
        substrOf (toString actual)
          (ResampleError.display (.WrongNumberOfInputChannels expected actual))) ∧
    (∀ expected actual : ℕ,
        substrOf (toString expected)
          (ResampleError.display (.WrongNumberOfOutputChannels expected actual)) ∧
        substrOf (toString actual)
          (ResampleError.display (.WrongNumberOfOutputChannels expected actual))) ∧
    (∀ expected actual : ℕ,
        substrOf (toString expected)
          (ResampleError.display (.WrongNumberOfMaskChannels expected actual)) ∧
        substrOf (toString actual)
          (ResampleError.display (.WrongNumberOfMaskChannels expected actual))) ∧
    (∀ channel expected actual : ℕ,
        substrOf (toString channel)
          (ResampleError.display
            (.InsufficientInputBufferSize channel expected actual)) ∧
        substrOf (toString expected)
          (ResampleError.display
            (.InsufficientInputBufferSize channel expected actual)) ∧
        substrOf (toString actual)
          (ResampleError.display
            (.InsufficientInputBufferSize channel expected actual))) ∧
    (∀ channel expected actual : ℕ,
        substrOf (toString channel)
          (ResampleError.display
            (.InsufficientOutputBufferSize channel expected actual)) ∧
        substrOf (toString expected)
          (ResampleError.display
            (.InsufficientOutputBufferSize channel expected actual)) ∧
        substrOf (toString actual)
          (ResampleError.display
            (.InsufficientOutputBufferSize channel expected actual))) := by
  simp only [ResamplerConstructionError.display, ResampleError.display]
  refine ⟨fun i o => ⟨?_, ?_⟩, fun p => ?_, fun p => ?_,
          fun p o m => ⟨?_, ?_, ?_⟩,
          fun e a => ⟨?_, ?_⟩, fun e a => ⟨?_, ?_⟩, fun e a => ⟨?_, ?_⟩,
          fun c e a => ⟨?_, ?_, ?_⟩, fun c e a => ⟨?_, ?_, ?_⟩⟩
  · exact substrOf_appL _ (substrOf_appL _ (substrOf_appR _ (substrOf_self _)))
  · exact substrOf_appR _ (substrOf_self _)
  · exact substrOf_appL _ (substrOf_appR _ (substrOf_self _))
  · exact substrOf_appL _ (substrOf_appR _ (substrOf_self _))
  · exact substrOf_appL _ (substrOf_appL _ (substrOf_appL _ (substrOf_appL _
      (substrOf_appL _ (substrOf_appL _ (substrOf_appL _ (substrOf_appL _
      (substrOf_appR _ (substrOf_self _)))))))))
  · exact substrOf_appL _ (substrOf_appL _ (substrOf_appL _ (substrOf_appL _
      (substrOf_appL _ (substrOf_appL _ (substrOf_appR _ (substrOf_self _)))))))
  · exact substrOf_appL _ (substrOf_appL _ (substrOf_appL _ (substrOf_appL _
      (substrOf_appR _ (substrOf_self _)))))
  · exact substrOf_appR _ (substrOf_self _)
  · exact substrOf_appL _ (substrOf_appL _ (substrOf_appR _ (substrOf_self _)))
  · exact substrOf_appR _ (substrOf_self _)
  · exact substrOf_appL _ (substrOf_appL _ (substrOf_appR _ (substrOf_self _)))
  · exact substrOf_appR _ (substrOf_self _)
  · exact substrOf_appL _ (substrOf_appL _ (substrOf_appR _ (substrOf_self _)))
  · exact substrOf_appL _ (substrOf_appL _ (substrOf_appR _ (substrOf_self _)))
  · exact substrOf_appR _ (substrOf_self _)
  · exact substrOf_appL _ (substrOf_appL _ (substrOf_appL _ (substrOf_appL _
      (substrOf_appR _ (substrOf_self _)))))
  · exact substrOf_appL _ (substrOf_appL _ (substrOf_appR _ (substrOf_self _)))
  · exact substrOf_appR _ (substrOf_self _)
  · exact substrOf_appL _ (substrOf_appL _ (substrOf_appL _ (substrOf_appL _
      (substrOf_appR _ (substrOf_self _)))))

/-- C3: the allowed absolute range reported in the `RatioOutOfBounds`
diagnostic message has lower endpoint `original / max_relative_ratio` and
upper endpoint `original * max_relative_ratio`, matching the spec's fixed
ratio window `specRatioWindow`. -/
theorem c3_reported_range_matches_spec_window :
    ∀ provided original max_relative_ratio : F64,
      ∃ pre : String,
        ResampleError.display
            (.RatioOutOfBounds provided original max_relative_ratio)
          = pre ++ ", allowed absolute range "
              ++ F64.display (specRatioWindow original max_relative_ratio).1
              ++ " to "
              ++ F64.display (specRatioWindow original max_relative_ratio).2 := by
  intro p o m
  exact ⟨"New resample ratio out of bounds. Provided ratio " ++ F64.display p
      ++ ", original resample ratio " ++ F64.display o
      ++ ", maximum relative ratio " ++ F64.display m, rfl⟩

/-- C4: the per-call fault type is exactly the refined closed variant set:
every `ResampleError` value is a `RatioOutOfBounds` (carrying provided,
original and max_relative_ratio), `SyncNotAdjustable`, a channel-count
mismatch carrying expected and actual, or a buffer-size fault carrying
channel, expected and actual; no coarse variant exists. -/
theorem c4_call_fault_closed_variant_set :
    ∀ e : ResampleError,
      (∃ provided original max_relative_ratio : F64,
          e = .RatioOutOfBounds provided original max_relative_ratio) ∨
      e = .SyncNotAdjustable ∨
      (∃ expected actual : ℕ, e = .WrongNumberOfInputChannels expected actual) ∨
      (∃ expected actual : ℕ, e = .WrongNumberOfOutputChannels expected actual) ∨
      (∃ expected actual : ℕ, e = .WrongNumberOfMaskChannels expected actual) ∨
      (∃ channel expected actual : ℕ,
          e = .InsufficientInputBufferSize channel expected actual) ∨
      (∃ channel expected actual : ℕ,
          e = .InsufficientOutputBufferSize channel expected actual) := by
  intro e
  cases e with
  | RatioOutOfBounds p o m => exact Or.inl ⟨p, o, m, rfl⟩
  | SyncNotAdjustable => exact Or.inr (Or.inl rfl)
  | WrongNumberOfInputChannels exp act =>
      exact Or.inr (Or.inr (Or.inl ⟨exp, act, rfl⟩))
  | WrongNumberOfOutputChannels exp act =>
      exact Or.inr (Or.inr (Or.inr (Or.inl ⟨exp, act, rfl⟩)))
  | WrongNumberOfMaskChannels exp act =>
      exact Or.inr (Or.inr (Or.inr (Or.inr (Or.inl ⟨exp, act, rfl⟩))))
  | InsufficientInputBufferSize ch exp act =>
      exact Or.inr (Or.inr (Or.inr (Or.inr (Or.inr (Or.inl ⟨ch, exp, act, rfl⟩)))))
  | InsufficientOutputBufferSize ch exp act =>
      exact Or.inr (Or.inr (Or.inr (Or.inr (Or.inr (Or.inr ⟨ch, exp, act, rfl⟩)))))

/-- C5: the construction-fault type is a closed variant set with exactly
three variants: `InvalidSampleRate` carrying both the provided input and
output rates, `InvalidRatio` carrying the provided ratio, and
`InvalidRelativeRatio` carrying the provided bound. -/
theorem c5_construction_fault_closed_variant_set :
    ∀ e : ResamplerConstructionError,
      (∃ input output : ℕ, e = .InvalidSampleRate input output) ∨
      (∃ provided : F64, e = .InvalidRatio provided) ∨
      (∃ provided : F64, e = .InvalidRelativeRatio provided) := by
  intro e
  cases e with
  | InvalidSampleRate input output => exact Or.inl ⟨input, output, rfl⟩
  | InvalidRatio provided => exact Or.inr (Or.inl ⟨provided, rfl⟩)
  | InvalidRelativeRatio provided => exact Or.inr (Or.inr ⟨provided, rfl⟩)

/-- C6: `MissingCpuFeature` wraps exactly one `CpuFeature` and carries no
other state, its rendered diagnostic embeds the wrapped feature's textual
name, and in particular the `Avx` tag renders as
"Missing CPU feature `avx`". -/
theorem c6_missing_cpu_feature_wraps_one_tag :
    (∀ e : MissingCpuFeature, e = MissingCpuFeature.mk e.feature) ∧
    (∀ f : CpuFeature, (MissingCpuFeature.mk f).feature = f) ∧
    (∀ e : MissingCpuFeature,
        e.display = "Missing CPU feature `" ++ e.feature.display ++ "`") ∧
    (MissingCpuFeature.mk CpuFeature.Avx).display = "Missing CPU feature `avx`" := by
  refine ⟨fun e => rfl, fun f => rfl, fun e => rfl, ?_⟩
  decide

/-- C7: `CpuFeature` is a finite, closed, platform-fixed enumeration: the
variants compiled on x86_64 are exactly Sse3, Avx and Fma, the variants
compiled on aarch64 exactly Neon, and each tag has its fixed textual name
"sse3", "avx", "fma", "neon". -/
theorem c7_cpu_feature_platform_enumeration :
    (∀ f : CpuFeature,
        (f.arch = Arch.x86_64 ↔
          (f = CpuFeature.Sse3 ∨ f = CpuFeature.Avx ∨ f = CpuFeature.Fma)) ∧
        (f.arch = Arch.aarch64 ↔ f = CpuFeature.Neon)) ∧
    CpuFeature.display .Sse3 = "sse3" ∧
    CpuFeature.display .Avx = "avx" ∧
    CpuFeature.display .Fma = "fma" ∧
    CpuFeature.display .Neon = "neon" := by
  refine ⟨fun f => ?_, rfl, rfl, rfl, rfl⟩
  cases f <;> exact ⟨by decide, by decide⟩

/-- C8: diagnostic rendering is deterministic: for each of the three fault
types, equal fault values render to character-for-character identical
strings; the output depends only on the fault value. -/
theorem c8_display_deterministic :
    (∀ a b : MissingCpuFeature, a = b → a.display = b.display) ∧
    (∀ a b : ResamplerConstructionError, a = b → a.display = b.display) ∧
    (∀ a b : ResampleError, a = b → a.display = b.display) :=
  ⟨fun _ _ h => h ▸ rfl, fun _ _ h => h ▸ rfl, fun _ _ h => h ▸ rfl⟩

theorem c8_display_deterministic_witness :
    (MissingCpuFeature.mk CpuFeature.Avx).display
        = (MissingCpuFeature.mk CpuFeature.Avx).display ∧
    (ResamplerConstructionError.InvalidSampleRate 0 44100).display
        = (ResamplerConstructionError.InvalidSampleRate 0 44100).display ∧
    ResampleError.SyncNotAdjustable.display
        = ResampleError.SyncNotAdjustable.display :=
  ⟨c8_display_deterministic.1 (MissingCpuFeature.mk CpuFeature.Avx)
      (MissingCpuFeature.mk CpuFeature.Avx) rfl,
   c8_display_deterministic.2.1 (ResamplerConstructionError.InvalidSampleRate 0 44100)
      (ResamplerConstructionError.InvalidSampleRate 0 44100) rfl,
   c8_display_deterministic.2.2 ResampleError.SyncNotAdjustable
      ResampleError.SyncNotAdjustable rfl⟩

/-- C9: for both `ResamplerConstructionError` and `ResampleError`, the
Debug textual representation is identical to the Display representation. -/
theorem c9_debug_equals_display :
    (∀ e : ResamplerConstructionError, e.debugStr = e.display) ∧
    (∀ e : ResampleError, e.debugStr = e.display) := by
  constructor <;> intro e <;> cases e <;> rfl

/-- C10: every numeric field carried by a fault (the rates of
`InvalidSampleRate`, and the channel/expected/actual fields of the
channel-count and buffer-size `ResampleError` variants) is an unsigned
integer, so its value is never negative as a mathematical integer. -/
theorem c10_numeric_fields_nonnegative :
    (∀ e : ResamplerConstructionError, ∀ x ∈ e.natFields, (0 : ℤ) ≤ (x : ℤ)) ∧
    (∀ e : ResampleError, ∀ x ∈ e.natFields, (0 : ℤ) ≤ (x : ℤ)) :=
  ⟨fun _ x _ => Int.natCast_nonneg x, fun _ x _ => Int.natCast_nonneg x⟩

theorem c10_numeric_fields_nonnegative_witness :
    3 ∈ (ResamplerConstructionError.InvalidSampleRate 3 4).natFields ∧
    (0 : ℤ) ≤ ((3 : ℕ) : ℤ) :=
  ⟨by decide,
   c10_numeric_fields_nonnegative.1
     (ResamplerConstructionError.InvalidSampleRate 3 4) 3 (by decide)⟩

end Rubato
